import Mathlib

/-
Verification development for the GDPR-Explainer chat backend.

This file gives a shallow embedding of the chat orchestration core
(`backend/app/services/chat_service.py`, `ChatService.chat_stream`) and of the
cache-key derivation (`backend/app/services/cache_service.py`,
`CacheService._generate_key`), and proves the behavioural claims about them.

Modelling conventions:
- External collaborators (the LLM, the Qdrant search wrapper, the Neo4j-backed
  explainer, the Redis cache) are passed in as function-valued parameters,
  one behaviour per retry attempt, so that each theorem quantifies over all
  collaborator behaviours.
- Python exceptions are modelled with `Except String`; the string is `str(e)`.
- A streamed run is modelled by the ordered list of chunks it yields (one JSON
  line per chunk in the source); JSON serialisation is injective on the chunk
  values, so chunk-list equality models byte-identical output.
- Python string operations used by the source (`str.replace`, `str.strip`,
  `str.lower`, substring membership via `in`, `sep.join`, string comparison)
  are re-implemented by structural recursion over `String.data` so that every
  definition is kernel-computable.
-/

namespace Gdpr

/-- ASCII lower-casing of one character, the effect of Python `str.lower` on
the ASCII strings manipulated here. -/
def charLower (c : Char) : Char :=
  if 65 ≤ c.toNat ∧ c.toNat ≤ 90 then Char.ofNat (c.toNat + 32) else c

/-- Python `s.lower()`. -/
def lowerStr (s : String) : String := ⟨s.data.map charLower⟩

/-- Python `str.strip` whitespace: space, tab, newline, carriage return,
vertical tab, form feed. -/
def isPyWs (c : Char) : Bool :=
  c.toNat == 32 || c.toNat == 9 || c.toNat == 10 || c.toNat == 13 ||
    c.toNat == 11 || c.toNat == 12

/-- Drop leading whitespace characters. -/
def dropWsLeft : List Char → List Char
  | [] => []
  | c :: l => if isPyWs c then dropWsLeft l else c :: l

/-- Python `s.strip()`: remove leading and trailing whitespace. -/
def stripStr (s : String) : String :=
  ⟨(dropWsLeft (dropWsLeft s.data).reverse).reverse⟩

/-- Fuelled worker for `replaceStr`; the fuel is the length of the remaining
input, which bounds the number of recursive calls since each call consumes at
least one character of the input. -/
def replFuel (pat rep : List Char) : Nat → List Char → List Char
  | _, [] => []
  | 0, l => l
  | n + 1, c :: rest =>
    if pat.isPrefixOf (c :: rest) then
      rep ++ replFuel pat rep n (rest.drop (pat.length - 1))
    else
      c :: replFuel pat rep n rest

/-- Python `s.replace(pat, rep)`: replace every (left-to-right,
non-overlapping) occurrence of `pat` in `s` by `rep`.  The source only uses
non-empty patterns; an empty pattern is returned unchanged. -/
def replaceStr (s pat rep : String) : String :=
  if pat.data.isEmpty then s else ⟨replFuel pat.data rep.data s.data.length s.data⟩

/-- Worker for `containsStr`. -/
def containsAux (pat : List Char) : List Char → Bool
  | [] => pat.isEmpty
  | c :: rest => pat.isPrefixOf (c :: rest) || containsAux pat rest

/-- Python `pat in s` (substring membership). -/
def containsStr (s pat : String) : Bool := containsAux pat.data s.data

/-- Lexicographic comparison of character lists by code point, the order
Python uses to compare strings. -/
def charListLe : List Char → List Char → Bool
  | [], _ => true
  | _ :: _, [] => false
  | a :: as, b :: bs =>
    if a.toNat < b.toNat then true
    else if b.toNat < a.toNat then false
    else charListLe as bs

/-- Python `a <= b` on strings. -/
def leStr (a b : String) : Bool := charListLe a.data b.data

/-- Python `sep.join(xs)`. -/
def joinSep (sep : String) : List String → String
  | [] => ""
  | [x] => x
  | x :: y :: xs => x ++ sep ++ joinSep sep (y :: xs)

/-- A Python value as it occurs in the `**kwargs` of the cache interface:
a string, an integer, or `None`. -/
inductive PyVal where
  | str (s : String)
  | int (n : Int)
  | none
deriving DecidableEq, Repr

/-- Python truthiness of a `PyVal`, the `if v` test in `_generate_key`. -/
def PyVal.truthy : PyVal → Bool
  | .str s => !s.data.isEmpty
  | .int n => n != 0
  | .none => false

/-- Python `f"{v}"` rendering of a `PyVal`. -/
def PyVal.toStr : PyVal → String
  | .str s => s
  | .int n => toString n
  | .none => "None"

/-- Insert a pair into a list ordered by key; worker for `sortPairs`. -/
def ordInsert (x : String × PyVal) : List (String × PyVal) → List (String × PyVal)
  | [] => [x]
  | y :: l => if leStr x.1 y.1 then x :: y :: l else y :: ordInsert x l

/-- Stable sort of keyword arguments by key: Python `sorted(kwargs.items())`
(the keys of a `**kwargs` dict are distinct, so sorting the pairs
lexicographically coincides with sorting by key). -/
def sortPairs : List (String × PyVal) → List (String × PyVal)
  | [] => []
  | x :: l => ordInsert x (sortPairs l)

/-- Ordering of keyword-argument pairs by key, as used by `sortPairs`. -/
def KeyLe (a b : String × PyVal) : Prop := leStr a.1 b.1 = true

/-- A pair list sorted by key. -/
def KeySorted : List (String × PyVal) → Prop := List.Pairwise KeyLe

/-- `CacheService._generate_key` (cache_service.py:75-96).  The SHA-256 hex
digest is passed in as a parameter `sha256hex`; every claim about the key is
independent of the concrete digest function. -/
def generate_key (sha256hex : String → String) (namespace_ identifier : String)
    (kwargs : List (String × PyVal)) : String :=
  let hash_input := stripStr (lowerStr identifier)
  let key_hash : String := ⟨(sha256hex hash_input).data.take 16⟩
  let params := joinSep ":"
    (((sortPairs kwargs).filter fun kv => kv.2.truthy).map fun kv => kv.1 ++ "=" ++ kv.2.toStr)
  if !params.data.isEmpty then namespace_ ++ ":" ++ key_hash ++ ":" ++ params
  else namespace_ ++ ":" ++ key_hash

/-- A search hit as formatted by `SearchService.search` (search_service.py:58-67).
The relevance score is carried opaquely (never inspected by the orchestrator);
an `Int` stands in for the JSON number. -/
structure SearchHit where
  id : String
  article_number : Int
  title : String
  text_snippet : String
  score : Int
deriving DecidableEq, Repr

/-- The Graph Collaborator's projection of an article
(`GraphService.get_article_details`); the orchestrator forwards it opaquely as
`related_data`, so only the identifying fields are modelled. -/
structure ArticleDetails where
  id : String
  number : Int
  title : String
deriving DecidableEq, Repr

/-- Result of `ExplainerService.explain_article` as consumed by the
orchestrator: `result["explanation"]` and `result["context"]`. -/
structure ExplainResult where
  explanation : String
  context : ArticleDetails
deriving DecidableEq, Repr

/-- One streamed response chunk (one JSON line), tagged as in the source by
its `type` field. -/
inductive Chunk where
  | explanation (content : String) (related_data : ArticleDetails)
  | searchResults (content : String) (results : List SearchHit)
  | sources (results : List SearchHit)
  | token (content : String)
  | error (content : String)
deriving DecidableEq, Repr

/-- Whether a chunk is an `error` chunk. -/
def Chunk.isError : Chunk → Bool
  | .error _ => true
  | _ => false

/-- Whether a chunk is a `token` chunk. -/
def Chunk.isToken : Chunk → Bool
  | .token _ => true
  | _ => false

/-- The contents of the `token` chunks of a transcript, in emission order. -/
def tokenContents (l : List Chunk) : List String :=
  l.filterMap fun c => match c with | .token s => some s | _ => Option.none

/-- An invocation of one of the Generation / Retrieval / Graph collaborators,
recorded with the arguments the orchestrator passes. -/
inductive CallEvent where
  | routerCall
  | explainCall (article_id : String)
  | searchCall (query : Option String) (limit : Nat)
  | qaStreamCall (context : String) (question : Option String)
deriving DecidableEq, Repr

/-- The `parameters` object of a route decision, restricted to the keys the
orchestrator reads (`article_number`, `topic`, `query`); a missing key is
`Option.none`, matching `params.get(...)`. -/
structure RouteParams where
  article_number : Option Int
  topic : Option String
  query : Option String
deriving DecidableEq, Repr

/-- A parsed classifier output: `route.get("tool")` and
`route.get("parameters", {})`. -/
structure RouteObj where
  tool : Option String
  parameters : Option RouteParams
deriving DecidableEq, Repr

/-- The empty `parameters` dict, the default of `route.get("parameters", {})`. -/
def defaultParams : RouteParams :=
  { article_number := Option.none, topic := Option.none, query := Option.none }

/-- The fallback route built on `json.JSONDecodeError`
(chat_service.py:93-95): `{"tool": "GENERAL_QA", "parameters": {"query": query}}`. -/
def fallbackRoute (query : String) : RouteObj :=
  { tool := some "GENERAL_QA",
    parameters := some { article_number := Option.none, topic := Option.none, query := some query } }

/-- Python `f"{x}"` for an optional string: `None` renders as `"None"`. -/
def pyStr (o : Option String) : String :=
  match o with
  | some s => s
  | Option.none => "None"

/-- The behaviour of the external collaborators during one attempt of the
retry loop.  Each fallible call is an `Except` whose error is the exception
text `str(e)`; `qaStream` returns the fragments produced before the stream
either ends (`Option.none`) or raises (`some err`).  `search` is total because
`SearchService.search` catches every exception and returns `[]`. -/
structure Attempt where
  getLlm : Except String Unit
  routerRaw : Except String String
  explain : String → Except String (Option ExplainResult)
  search : Option String → Nat → List SearchHit
  qaStream : String → Option String → List String × Option String

/-- The code-fence stripping applied to the raw classifier output
(chat_service.py:90): `route_raw.replace("```json", "").replace("```", "").strip()`. -/
def stripFences (raw : String) : String :=
  stripStr (replaceStr (replaceStr raw "```json" "") "```" "")

/-- The RAG context block built in the GENERAL_QA branch (chat_service.py:141):
per hit `f"Article {r['article_number']} ({r['title']}):\n{r['text_snippet']}"`,
joined by `"\n\n"`. -/
def contextText (hits : List SearchHit) : String :=
  joinSep "\n\n" (hits.map fun r =>
    "Article " ++ toString r.article_number ++ " (" ++ r.title ++ "):\n" ++ r.text_snippet)

/-- chat_service.py:118. -/
def notFoundMsg : String := "Could not find the specified article."

/-- chat_service.py:179. -/
def genericErrMsg : String := "Sorry, I encountered an error processing your request."

/-- chat_service.py:181. -/
def modelErrMsg : String :=
  "Error: The selected model is not available or the API key is invalid. Please check your settings."

/-- chat_service.py:183. -/
def quotaErrMsg : String := "Error: API quota exceeded. Please check your billing or credits."

/-- The error-message selection after the retry loop is exhausted
(chat_service.py:178-185), applied to `str(last_error)` where `last_error`
is `None` when no attempt raised. -/
def classifyError (last_error : Option String) : String :=
  let s := pyStr last_error
  if containsStr s "404" && containsStr s "models/" then modelErrMsg
  else if containsStr (lowerStr s) "quota" then quotaErrMsg
  else genericErrMsg

/-- How one iteration of the retry loop ends: `finished cached` models a
`return` from the loop body (`cached` records whether `cache_service.set` was
reached), `fellThrough` models reaching the end of the `if/elif` chain with no
matching tool, and `raised err` models an exception caught by the `except`. -/
inductive Outcome where
  | finished (cached : Bool)
  | fellThrough
  | raised (err : String)
deriving DecidableEq, Repr

/-- Observable effects of one iteration of the retry loop: the chunks it
yields (each one also appended to `response_chunks`), the collaborator calls
it makes, and how it ends. -/
structure AttemptOut where
  emitted : List Chunk
  calls : List CallEvent
  outcome : Outcome
deriving DecidableEq, Repr

/-- The tool dispatch (chat_service.py:100-167), given the already-parsed
route.  `if art_num:` is Python truthiness, so `0` behaves like a missing
`article_number`. -/
def dispatchTool (a : Attempt) (route : RouteObj) : AttemptOut :=
  let tool := route.tool
  let params := route.parameters.getD defaultParams
  if tool = some "EXPLAIN_ARTICLE" then
    match params.article_number with
    | some n =>
      if n = 0 then
        { emitted := [.error notFoundMsg], calls := [], outcome := .finished false }
      else
        match a.explain ("ART-" ++ toString n) with
        | .error e =>
          { emitted := [], calls := [.explainCall ("ART-" ++ toString n)], outcome := .raised e }
        | .ok (some result) =>
          { emitted := [.explanation result.explanation result.context],
            calls := [.explainCall ("ART-" ++ toString n)], outcome := .finished true }
        | .ok Option.none =>
          { emitted := [.error notFoundMsg],
            calls := [.explainCall ("ART-" ++ toString n)], outcome := .finished false }
    | Option.none => { emitted := [.error notFoundMsg], calls := [], outcome := .finished false }
  else if tool = some "TOPIC_SEARCH" then
    let topic := params.topic
    let results := a.search topic 10
    { emitted :=
        [.searchResults ("Here are the articles related to \x27" ++ pyStr topic ++ "\x27:") results],
      calls := [.searchCall topic 10], outcome := .finished true }
  else if tool = some "GENERAL_QA" then
    let q := params.query
    let hits := a.search q 5
    let ctx := contextText hits
    let stream := a.qaStream ctx q
    let out := Chunk.sources hits :: stream.1.map Chunk.token
    match stream.2 with
    | Option.none =>
      { emitted := out, calls := [.searchCall q 5, .qaStreamCall ctx q], outcome := .finished true }
    | some e =>
      { emitted := out, calls := [.searchCall q 5, .qaStreamCall ctx q], outcome := .raised e }
  else
    { emitted := [], calls := [], outcome := .fellThrough }

/-- One iteration of the retry loop (chat_service.py:80-167): construct the
LLM, invoke the router, strip code fences, parse (falling back to
`fallbackRoute` on malformed output, chat_service.py:91-95), then dispatch.
`parse` is the JSON-parsing semantics of `json.loads` followed by the two
`.get` projections; it returns `Option.none` exactly when `json.loads`
raises `JSONDecodeError`. -/
def runAttempt (parse : String → Option RouteObj) (a : Attempt) (query : String) : AttemptOut :=
  match a.getLlm with
  | .error e => { emitted := [], calls := [], outcome := .raised e }
  | .ok _ =>
    match a.routerRaw with
    | .error e => { emitted := [], calls := [.routerCall], outcome := .raised e }
    | .ok raw =>
      let route := (parse (stripFences raw)).getD (fallbackRoute query)
      let d := dispatchTool a route
      { emitted := d.emitted, calls := .routerCall :: d.calls, outcome := d.outcome }

/-- Observable effects of one whole `chat_stream` run: the yielded chunks in
order, the collaborator calls, the cache write (key and stored transcript, if
any), the number of `asyncio.sleep(1)` suspensions, and the number of loop
iterations that ran. -/
structure RunOut where
  emitted : List Chunk
  calls : List CallEvent
  cacheWrite : Option (String × List Chunk)
  sleeps : Nat
  attempts : Nat
deriving DecidableEq, Repr

/-- Python `model_provider or "openai"` (chat_service.py:62): `None` and the
empty string both fall back to the default. -/
def pyOrDefault (provider : Option String) (d : String) : String :=
  match provider with
  | some p => if p.data.isEmpty then d else p
  | Option.none => d

/-- The cache key of one run (chat_service.py:62-63):
`cache_service.get("chat", query, model=model_provider or "openai", lang=language)`. -/
def chatKey (sha256hex : String → String) (query : String) (provider : Option String)
    (language : String) : String :=
  generate_key sha256hex "chat" query
    [("model", .str (pyOrDefault provider "openai")), ("lang", .str language)]

/-- Outcome of the run once the second (last) loop iteration `r1` has run,
after a first iteration `r0` that did not return.  `e0` is `last_error` as
left by the first iteration (`some` if it raised).  Since every yielded chunk
is also appended to `response_chunks`, the transcript stored by a cache write
is exactly all chunks yielded so far, including any partial chunks of the
first iteration. -/
def secondAttempt (key : String) (r0 r1 : AttemptOut) (sleeps : Nat) (e0 : Option String) :
    RunOut :=
  match r1.outcome with
  | .finished c =>
    { emitted := r0.emitted ++ r1.emitted, calls := r0.calls ++ r1.calls,
      cacheWrite := if c then some (key, r0.emitted ++ r1.emitted) else Option.none,
      sleeps := sleeps, attempts := 2 }
  | .fellThrough =>
    { emitted := r0.emitted ++ r1.emitted ++ [.error (classifyError e0)],
      calls := r0.calls ++ r1.calls, cacheWrite := Option.none, sleeps := sleeps, attempts := 2 }
  | .raised e1 =>
    { emitted := r0.emitted ++ r1.emitted ++ [.error (classifyError (some e1))],
      calls := r0.calls ++ r1.calls, cacheWrite := Option.none, sleeps := sleeps, attempts := 2 }

/-- `ChatService.chat_stream` (chat_service.py:51-185).  `cacheGet` is the
state of the Redis cache as a partial map from key to stored transcript (a
disabled or unreachable cache is `fun _ => Option.none`); `a0`, `a1` are the
collaborator behaviours seen by the first and second loop iteration.
On a cache hit the cached chunks are replayed and nothing else happens; on a
miss the loop runs at most twice, sleeping one time unit only between a
raising iteration and the next; after exhaustion exactly one terminal error
chunk is yielded, classified from `str(last_error)`. -/
def chatStream (sha256hex : String → String) (parse : String → Option RouteObj)
    (query : String) (provider : Option String) (language : String)
    (cacheGet : String → Option (List Chunk)) (a0 a1 : Attempt) : RunOut :=
  let key := chatKey sha256hex query provider language
  match cacheGet key with
  | some cached =>
    { emitted := cached, calls := [], cacheWrite := Option.none, sleeps := 0, attempts := 0 }
  | Option.none =>
    let r0 := runAttempt parse a0 query
    match r0.outcome with
    | .finished c =>
      { emitted := r0.emitted, calls := r0.calls,
        cacheWrite := if c then some (key, r0.emitted) else Option.none,
        sleeps := 0, attempts := 1 }
    | .fellThrough => secondAttempt key r0 (runAttempt parse a1 query) 0 Option.none
    | .raised e0 => secondAttempt key r0 (runAttempt parse a1 query) 1 (some e0)

/-- The spec-side rendering of the RAG context block, following the claim's
words letter by letter: per hit `"Article {number} ({title}): {snippet}"`
(colon followed by a space), joined by blank lines.  To be compared with
`contextText`, the rendering translated from the source. -/
def contextTextSpec (hits : List SearchHit) : String :=
  joinSep "\n\n" (hits.map fun r =>
    "Article " ++ toString r.article_number ++ " (" ++ r.title ++ "): " ++ r.text_snippet)

/-- Concrete hash function for witnesses (the claims hold for every digest). -/
def shaZero : String → String := fun _ => ""

/-- Concrete empty cache state for witnesses. -/
def emptyCache : String → Option (List Chunk) := fun _ => Option.none

/-- Witness parser: every classifier output routes to `TOPIC_SEARCH` on "t". -/
def parseTopic : String → Option RouteObj := fun _ =>
  some { tool := some "TOPIC_SEARCH",
         parameters := some { article_number := Option.none, topic := some "t",
                              query := Option.none } }

/-- Witness parser: every classifier output routes to `GENERAL_QA` on "q". -/
def parseQA : String → Option RouteObj := fun _ =>
  some { tool := some "GENERAL_QA",
         parameters := some { article_number := Option.none, topic := Option.none,
                              query := some "q" } }

/-- Witness parser: every classifier output routes to `EXPLAIN_ARTICLE` 5. -/
def parseExplain : String → Option RouteObj := fun _ =>
  some { tool := some "EXPLAIN_ARTICLE",
         parameters := some { article_number := some 5, topic := Option.none,
                              query := Option.none } }

/-- Witness parser: valid JSON object whose tool is not one of the three. -/
def parseOther : String → Option RouteObj := fun _ =>
  some { tool := some "SOMETHING_ELSE", parameters := Option.none }

/-- Witness parser: classifier output is never valid JSON. -/
def parseFail : String → Option RouteObj := fun _ => Option.none

/-- Witness collaborators: benign behaviours, empty search results. -/
def attemptTopic : Attempt :=
  { getLlm := .ok (), routerRaw := .ok "r", explain := fun _ => .ok Option.none,
    search := fun _ _ => [], qaStream := fun _ _ => ([], Option.none) }

/-- Witness collaborators: one search hit, a two-fragment answer stream. -/
def attemptQA : Attempt :=
  { getLlm := .ok (), routerRaw := .ok "not json", explain := fun _ => .ok Option.none,
    search := fun _ _ => [{ id := "GDPR-1", article_number := 1, title := "T",
                            text_snippet := "S", score := 0 }],
    qaStream := fun _ _ => (["x", "y"], Option.none) }

/-- The single search hit used by the witness collaborators. -/
def hitT : SearchHit :=
  { id := "GDPR-1", article_number := 1, title := "T", text_snippet := "S", score := 0 }

/-- Counterexample collaborators: the answer stream raises after one
fragment. -/
def attemptQAPartial : Attempt :=
  { getLlm := .ok (), routerRaw := .ok "not json", explain := fun _ => .ok Option.none,
    search := fun _ _ => [hitT], qaStream := fun _ _ => (["x"], some "boom") }

/-- Counterexample collaborators: the retry's answer stream completes with
one fragment. -/
def attemptQARetry : Attempt :=
  { getLlm := .ok (), routerRaw := .ok "not json", explain := fun _ => .ok Option.none,
    search := fun _ _ => [hitT], qaStream := fun _ _ => (["y"], Option.none) }

/-- Witness collaborators: the graph knows exactly article `ART-5`. -/
def attemptExplain : Attempt :=
  { getLlm := .ok (), routerRaw := .ok "r",
    explain := fun s =>
      if s = "ART-5" then
        .ok (some { explanation := "expl",
                    context := { id := "ART-5", number := 5, title := "T" } })
      else .ok Option.none,
    search := fun _ _ => [], qaStream := fun _ _ => ([], Option.none) }

/-- Witness collaborators: LLM construction always raises a quota error. -/
def attemptFail : Attempt :=
  { getLlm := .error "User Quota exceeded", routerRaw := .ok "r",
    explain := fun _ => .ok Option.none, search := fun _ _ => [],
    qaStream := fun _ _ => ([], Option.none) }

/-- Witness collaborators: LLM construction raises a missing-model error. -/
def attemptFail404 : Attempt :=
  { getLlm := .error "404 models/gemini-pro is not found", routerRaw := .ok "r",
    explain := fun _ => .ok Option.none, search := fun _ _ => [],
    qaStream := fun _ _ => ([], Option.none) }

/-- Witness cache state holding the transcript written by the `attemptTopic`
run under its key. -/
def cacheAfterTopic : String → Option (List Chunk) := fun s =>
  if s = "chat::lang=en:model=openai" then
    some [.searchResults ("Here are the articles related to \x27t\x27:") []]
  else Option.none

/-- `charListLe` is total. -/
theorem charListLe_total : ∀ a b : List Char, charListLe a b = true ∨ charListLe b a = true
  | [], _ => Or.inl rfl
  | _ :: _, [] => Or.inr rfl
  | a :: as, b :: bs => by
    simp only [charListLe]
    rcases Nat.lt_trichotomy a.toNat b.toNat with h | h | h
    · left; simp [h]
    · have h1 : ¬ a.toNat < b.toNat := by omega
      have h2 : ¬ b.toNat < a.toNat := by omega
      simpa [h1, h2] using charListLe_total as bs
    · right; simp [h, Nat.lt_asymm h]

/-- `charListLe` is transitive. -/
theorem charListLe_trans : ∀ a b c : List Char,
    charListLe a b = true → charListLe b c = true → charListLe a c = true
  | [], _, _ => fun _ _ => rfl
  | _ :: _, [], _ => fun hab _ => by simp [charListLe] at hab
  | _ :: _, _ :: _, [] => fun _ hbc => by simp [charListLe] at hbc
  | a :: as, b :: bs, c :: cs => fun hab hbc => by
    simp only [charListLe] at hab hbc ⊢
    by_cases h1 : a.toNat < b.toNat <;> by_cases h2 : b.toNat < c.toNat
    · simp [Nat.lt_trans h1 h2]
    · by_cases h3 : c.toNat < b.toNat
      · simp [h2, h3] at hbc
      · have : a.toNat < c.toNat := by omega
        simp [this]
    · by_cases h3 : b.toNat < a.toNat
      · simp [h1, h3] at hab
      · have : a.toNat < c.toNat := by omega
        simp [this]
    · by_cases h3 : b.toNat < a.toNat
      · simp [h1, h3] at hab
      · by_cases h4 : c.toNat < b.toNat
        · simp [h2, h4] at hbc
        · have h5 : ¬ a.toNat < c.toNat := by omega
          have h6 : ¬ c.toNat < a.toNat := by omega
          simp only [h1, h3, if_neg, ite_false] at hab
          simp only [h2, h4, if_neg, ite_false] at hbc
          simp only [h5, h6, if_neg, ite_false]
          exact charListLe_trans as bs cs hab hbc

/-- `KeyLe` is total. -/
theorem keyLe_total (a b : String × PyVal) : KeyLe a b ∨ KeyLe b a :=
  charListLe_total a.1.data b.1.data

/-- `KeyLe` is transitive. -/
theorem keyLe_trans {a b c : String × PyVal} (h1 : KeyLe a b) (h2 : KeyLe b c) : KeyLe a c :=
  charListLe_trans a.1.data b.1.data c.1.data h1 h2

/-- Membership in an ordered insertion. -/
theorem mem_ordInsert {x y : String × PyVal} : ∀ {l : List (String × PyVal)},
    y ∈ ordInsert x l ↔ y = x ∨ y ∈ l := by
  intro l
  induction l with
  | nil => simp [ordInsert]
  | cons z l ih =>
    simp only [ordInsert]
    split
    · simp [List.mem_cons]
    · simp [List.mem_cons, ih]; tauto

/-- Ordered insertion preserves sortedness. -/
theorem keySorted_ordInsert {x : String × PyVal} : ∀ {l : List (String × PyVal)},
    KeySorted l → KeySorted (ordInsert x l) := by
  intro l
  induction l with
  | nil => intro _; simp [ordInsert, KeySorted]
  | cons y l ih =>
    intro hl
    rcases List.pairwise_cons.mp hl with ⟨hy, hl2⟩
    simp only [ordInsert]
    split
    case isTrue h =>
      refine List.pairwise_cons.mpr ⟨?_, hl⟩
      intro z hz
      rcases List.mem_cons.mp hz with rfl | hz2
      · exact h
      · exact keyLe_trans h (hy z hz2)
    case isFalse h =>
      refine List.pairwise_cons.mpr ⟨?_, ih hl2⟩
      intro z hz
      rcases mem_ordInsert.mp hz with rfl | hz2
      · rcases keyLe_total z y with ht | ht
        · exact absurd ht h
        · exact ht
      · exact hy z hz2

/-- The result of `sortPairs` is sorted by key. -/
theorem keySorted_sortPairs : ∀ l : List (String × PyVal), KeySorted (sortPairs l)
  | [] => List.Pairwise.nil
  | _ :: l => keySorted_ordInsert (keySorted_sortPairs l)

/-- Inserting an element that is below the whole list puts it in front. -/
theorem ordInsert_of_le_all {x : String × PyVal} {l : List (String × PyVal)}
    (h : ∀ z ∈ l, KeyLe x z) : ordInsert x l = x :: l := by
  cases l with
  | nil => rfl
  | cons y l =>
    have hy : leStr x.1 y.1 = true := h y (List.mem_cons_self y l)
    simp [ordInsert, hy]

/-- Filtering commutes with ordered insertion into a sorted list. -/
theorem filter_ordInsert (p : String × PyVal → Bool) (x : String × PyVal) :
    ∀ l : List (String × PyVal), KeySorted l →
      (ordInsert x l).filter p = if p x then ordInsert x (l.filter p) else l.filter p
  | [], _ => by by_cases hp : p x <;> simp [ordInsert, List.filter_cons, hp]
  | y :: l, hl => by
    rcases List.pairwise_cons.mp hl with ⟨hy, hl2⟩
    simp only [ordInsert]
    split
    case isTrue hxy =>
      by_cases hp : p x
      · by_cases hpy : p y
        · simp [List.filter_cons, hp, hpy, ordInsert, hxy]
        · have hall : ordInsert x (l.filter p) = x :: l.filter p := by
            apply ordInsert_of_le_all
            intro z hz
            exact keyLe_trans hxy (hy z (List.mem_of_mem_filter hz))
          simp [List.filter_cons, hp, hpy, hall]
      · simp [List.filter_cons, hp]
    case isFalse hxy =>
      have ih := filter_ordInsert p x l hl2
      by_cases hp : p x
      · by_cases hpy : p y
        · simp [List.filter_cons, hp, hpy, ih, ordInsert, hxy]
        · simp [List.filter_cons, hp, hpy, ih]
      · by_cases hpy : p y <;> simp [List.filter_cons, hp, hpy, ih]

/-- Filtering commutes with `sortPairs`. -/
theorem filter_sortPairs (p : String × PyVal → Bool) :
    ∀ l : List (String × PyVal), (sortPairs l).filter p = sortPairs (l.filter p)
  | [] => rfl
  | x :: l => by
    simp only [sortPairs, List.filter_cons]
    rw [filter_ordInsert p x _ (keySorted_sortPairs l)]
    by_cases hp : p x <;> simp [hp, filter_sortPairs p l, sortPairs]

/-- Token chunks are never error chunks. -/
theorem filter_isError_tokens (l : List String) :
    (l.map Chunk.token).filter Chunk.isError = [] := by
  induction l with
  | nil => rfl
  | cons x l ih => simp [List.filter_cons, Chunk.isError, ih]

/-- Dispatch on `EXPLAIN_ARTICLE` with a truthy `article_number` and a found
article (chat_service.py:101-116). -/
theorem dispatchTool_explain_found {a : Attempt} {route : RouteObj} {n : Int}
    {result : ExplainResult}
    (ht : route.tool = some "EXPLAIN_ARTICLE")
    (hn : (route.parameters.getD defaultParams).article_number = some n) (hn0 : n ≠ 0)
    (he : a.explain ("ART-" ++ toString n) = .ok (some result)) :
    dispatchTool a route =
      { emitted := [.explanation result.explanation result.context],
        calls := [.explainCall ("ART-" ++ toString n)], outcome := .finished true } := by
  simp [dispatchTool, ht, hn, hn0, he]

/-- Dispatch on `EXPLAIN_ARTICLE` with a truthy `article_number` and a missing
article (chat_service.py:118-121). -/
theorem dispatchTool_explain_missing {a : Attempt} {route : RouteObj} {n : Int}
    (ht : route.tool = some "EXPLAIN_ARTICLE")
    (hn : (route.parameters.getD defaultParams).article_number = some n) (hn0 : n ≠ 0)
    (he : a.explain ("ART-" ++ toString n) = .ok Option.none) :
    dispatchTool a route =
      { emitted := [.error notFoundMsg],
        calls := [.explainCall ("ART-" ++ toString n)], outcome := .finished false } := by
  simp [dispatchTool, ht, hn, hn0, he]

/-- Dispatch on `EXPLAIN_ARTICLE` when the explainer raises. -/
theorem dispatchTool_explain_raised {a : Attempt} {route : RouteObj} {n : Int} {e : String}
    (ht : route.tool = some "EXPLAIN_ARTICLE")
    (hn : (route.parameters.getD defaultParams).article_number = some n) (hn0 : n ≠ 0)
    (he : a.explain ("ART-" ++ toString n) = .error e) :
    dispatchTool a route =
      { emitted := [], calls := [.explainCall ("ART-" ++ toString n)], outcome := .raised e } := by
  simp [dispatchTool, ht, hn, hn0, he]

/-- Dispatch on `EXPLAIN_ARTICLE` with a falsy `article_number`
(absent, or `0` which fails the `if art_num:` test): the explainer is not
consulted. -/
theorem dispatchTool_explain_falsy {a : Attempt} {route : RouteObj}
    (ht : route.tool = some "EXPLAIN_ARTICLE")
    (hn : (route.parameters.getD defaultParams).article_number = Option.none ∨
          (route.parameters.getD defaultParams).article_number = some 0) :
    dispatchTool a route =
      { emitted := [.error notFoundMsg], calls := [], outcome := .finished false } := by
  rcases hn with hn | hn <;> simp [dispatchTool, ht, hn]

/-- Dispatch on `TOPIC_SEARCH` (chat_service.py:123-136). -/
theorem dispatchTool_topic {a : Attempt} {route : RouteObj}
    (ht : route.tool = some "TOPIC_SEARCH") :
    dispatchTool a route =
      { emitted := [.searchResults
          ("Here are the articles related to \x27" ++
            pyStr (route.parameters.getD defaultParams).topic ++ "\x27:")
          (a.search (route.parameters.getD defaultParams).topic 10)],
        calls := [.searchCall (route.parameters.getD defaultParams).topic 10],
        outcome := .finished true } := by
  simp [dispatchTool, ht]

/-- Dispatch on `GENERAL_QA` with a stream that ends normally
(chat_service.py:138-167). -/
theorem dispatchTool_qa_ok {a : Attempt} {route : RouteObj} {frags : List String}
    (ht : route.tool = some "GENERAL_QA")
    (hs : a.qaStream (contextText (a.search (route.parameters.getD defaultParams).query 5))
            (route.parameters.getD defaultParams).query = (frags, Option.none)) :
    dispatchTool a route =
      { emitted := .sources (a.search (route.parameters.getD defaultParams).query 5) ::
          frags.map .token,
        calls := [.searchCall (route.parameters.getD defaultParams).query 5,
          .qaStreamCall (contextText (a.search (route.parameters.getD defaultParams).query 5))
            (route.parameters.getD defaultParams).query],
        outcome := .finished true } := by
  simp [dispatchTool, ht, hs]

/-- Dispatch on `GENERAL_QA` with a stream that raises after `frags`. -/
theorem dispatchTool_qa_raised {a : Attempt} {route : RouteObj} {frags : List String} {e : String}
    (ht : route.tool = some "GENERAL_QA")
    (hs : a.qaStream (contextText (a.search (route.parameters.getD defaultParams).query 5))
            (route.parameters.getD defaultParams).query = (frags, some e)) :
    dispatchTool a route =
      { emitted := .sources (a.search (route.parameters.getD defaultParams).query 5) ::
          frags.map .token,
        calls := [.searchCall (route.parameters.getD defaultParams).query 5,
          .qaStreamCall (contextText (a.search (route.parameters.getD defaultParams).query 5))
            (route.parameters.getD defaultParams).query],
        outcome := .raised e } := by
  simp [dispatchTool, ht, hs]

/-- Dispatch on an unrecognised tool: the `if/elif` chain matches nothing, no
chunk is emitted, no collaborator called, and the loop iteration just ends. -/
theorem dispatchTool_other {a : Attempt} {route : RouteObj}
    (h1 : route.tool ≠ some "EXPLAIN_ARTICLE") (h2 : route.tool ≠ some "TOPIC_SEARCH")
    (h3 : route.tool ≠ some "GENERAL_QA") :
    dispatchTool a route = { emitted := [], calls := [], outcome := .fellThrough } := by
  simp [dispatchTool, h1, h2, h3]

/-- A loop iteration whose LLM construction raises. -/
theorem runAttempt_llm_raised {parse : String → Option RouteObj} {a : Attempt} {q e : String}
    (h : a.getLlm = .error e) :
    runAttempt parse a q = { emitted := [], calls := [], outcome := .raised e } := by
  simp [runAttempt, h]

/-- A loop iteration whose router invocation raises. -/
theorem runAttempt_router_raised {parse : String → Option RouteObj} {a : Attempt} {q e : String}
    (hl : a.getLlm = .ok ()) (h : a.routerRaw = .error e) :
    runAttempt parse a q = { emitted := [], calls := [.routerCall], outcome := .raised e } := by
  simp [runAttempt, hl, h]

/-- A loop iteration that reaches dispatch with a successfully parsed route. -/
theorem runAttempt_routed {parse : String → Option RouteObj} {a : Attempt} {q raw : String}
    {robj : RouteObj}
    (hl : a.getLlm = .ok ()) (hr : a.routerRaw = .ok raw)
    (hp : parse (stripFences raw) = some robj) :
    runAttempt parse a q =
      { emitted := (dispatchTool a robj).emitted,
        calls := .routerCall :: (dispatchTool a robj).calls,
        outcome := (dispatchTool a robj).outcome } := by
  simp [runAttempt, hl, hr, hp]

/-- A loop iteration whose classifier output fails to parse: dispatch runs on
the `fallbackRoute` (chat_service.py:93-95). -/
theorem runAttempt_fallback {parse : String → Option RouteObj} {a : Attempt} {q raw : String}
    (hl : a.getLlm = .ok ()) (hr : a.routerRaw = .ok raw)
    (hp : parse (stripFences raw) = Option.none) :
    runAttempt parse a q =
      { emitted := (dispatchTool a (fallbackRoute q)).emitted,
        calls := .routerCall :: (dispatchTool a (fallbackRoute q)).calls,
        outcome := (dispatchTool a (fallbackRoute q)).outcome } := by
  simp [runAttempt, hl, hr, hp]

/-- A raising dispatch never emits an error chunk (error chunks are only
emitted on paths that `return`). -/
theorem dispatchTool_raised_no_error {a : Attempt} {route : RouteObj} {e : String}
    (h : (dispatchTool a route).outcome = .raised e) :
    (dispatchTool a route).emitted.filter Chunk.isError = [] := by
  by_cases h1 : route.tool = some "EXPLAIN_ARTICLE"
  · cases hn : (route.parameters.getD defaultParams).article_number with
    | none =>
      rw [dispatchTool_explain_falsy h1 (Or.inl hn)] at h
      simp at h
    | some n =>
      by_cases hn0 : n = 0
      · subst hn0
        rw [dispatchTool_explain_falsy h1 (Or.inr hn)] at h
        simp at h
      · cases he : a.explain ("ART-" ++ toString n) with
        | error e2 => rw [dispatchTool_explain_raised h1 hn hn0 he]; rfl
        | ok r =>
          cases r with
          | none => rw [dispatchTool_explain_missing h1 hn hn0 he] at h; simp at h
          | some result => rw [dispatchTool_explain_found h1 hn hn0 he] at h; simp at h
  · by_cases h2 : route.tool = some "TOPIC_SEARCH"
    · rw [dispatchTool_topic h2] at h
      simp at h
    · by_cases h3 : route.tool = some "GENERAL_QA"
      · rcases hs : a.qaStream
            (contextText (a.search (route.parameters.getD defaultParams).query 5))
            (route.parameters.getD defaultParams).query with ⟨frags, err⟩
        cases err with
        | none => rw [dispatchTool_qa_ok h3 hs] at h; simp at h
        | some e2 =>
          rw [dispatchTool_qa_raised h3 hs]
          simp [List.filter_cons, Chunk.isError, filter_isError_tokens]
      · rw [dispatchTool_other h1 h2 h3] at h
        simp at h

/-- A raising loop iteration never emits an error chunk. -/
theorem runAttempt_raised_no_error {parse : String → Option RouteObj} {a : Attempt} {q e : String}
    (h : (runAttempt parse a q).outcome = .raised e) :
    (runAttempt parse a q).emitted.filter Chunk.isError = [] := by
  cases hl : a.getLlm with
  | error e0 => rw [runAttempt_llm_raised hl]; rfl
  | ok u =>
    cases u
    cases hr : a.routerRaw with
    | error e0 => rw [runAttempt_router_raised hl hr]; rfl
    | ok raw =>
      cases hp : parse (stripFences raw) with
      | none =>
        rw [runAttempt_fallback hl hr hp] at h ⊢
        exact dispatchTool_raised_no_error h
      | some robj =>
        rw [runAttempt_routed hl hr hp] at h ⊢
        exact dispatchTool_raised_no_error h

/-- A cache hit replays the cached transcript and calls no collaborator. -/
theorem chatStream_hit {sha256hex : String → String} {parse : String → Option RouteObj}
    {query language : String} {provider : Option String}
    {cacheGet : String → Option (List Chunk)} {a0 a1 : Attempt} {cached : List Chunk}
    (h : cacheGet (chatKey sha256hex query provider language) = some cached) :
    chatStream sha256hex parse query provider language cacheGet a0 a1 =
      { emitted := cached, calls := [], cacheWrite := Option.none, sleeps := 0, attempts := 0 } := by
  simp [chatStream, h]

/-- A cache miss whose first loop iteration returns. -/
theorem chatStream_miss_finished {sha256hex : String → String} {parse : String → Option RouteObj}
    {query language : String} {provider : Option String}
    {cacheGet : String → Option (List Chunk)} {a0 a1 : Attempt} {c : Bool}
    (h : cacheGet (chatKey sha256hex query provider language) = Option.none)
    (h0 : (runAttempt parse a0 query).outcome = .finished c) :
    chatStream sha256hex parse query provider language cacheGet a0 a1 =
      { emitted := (runAttempt parse a0 query).emitted,
        calls := (runAttempt parse a0 query).calls,
        cacheWrite := if c then
            some (chatKey sha256hex query provider language, (runAttempt parse a0 query).emitted)
          else Option.none,
        sleeps := 0, attempts := 1 } := by
  simp [chatStream, h, h0]

/-- A cache miss whose first loop iteration falls through (no matching tool):
the loop continues with no sleep and `last_error` still `None`. -/
theorem chatStream_miss_fellThrough {sha256hex : String → String}
    {parse : String → Option RouteObj} {query language : String} {provider : Option String}
    {cacheGet : String → Option (List Chunk)} {a0 a1 : Attempt}
    (h : cacheGet (chatKey sha256hex query provider language) = Option.none)
    (h0 : (runAttempt parse a0 query).outcome = .fellThrough) :
    chatStream sha256hex parse query provider language cacheGet a0 a1 =
      secondAttempt (chatKey sha256hex query provider language)
        (runAttempt parse a0 query) (runAttempt parse a1 query) 0 Option.none := by
  simp [chatStream, h, h0]

/-- A cache miss whose first loop iteration raises: one sleep, and
`last_error` is set. -/
theorem chatStream_miss_raised {sha256hex : String → String}
    {parse : String → Option RouteObj} {query language : String} {provider : Option String}
    {cacheGet : String → Option (List Chunk)} {a0 a1 : Attempt} {e0 : String}
    (h : cacheGet (chatKey sha256hex query provider language) = Option.none)
    (h0 : (runAttempt parse a0 query).outcome = .raised e0) :
    chatStream sha256hex parse query provider language cacheGet a0 a1 =
      secondAttempt (chatKey sha256hex query provider language)
        (runAttempt parse a0 query) (runAttempt parse a1 query) 1 (some e0) := by
  simp [chatStream, h, h0]

/-- Whenever a run writes the cache, it writes under the run's own cache key
and stores exactly the chunk sequence the run emitted. -/
theorem chatStream_cacheWrite_sound {sha256hex : String → String}
    {parse : String → Option RouteObj} {query language : String} {provider : Option String}
    {cacheGet : String → Option (List Chunk)} {a0 a1 : Attempt} {k : String} {v : List Chunk}
    (h : (chatStream sha256hex parse query provider language cacheGet a0 a1).cacheWrite =
      some (k, v)) :
    k = chatKey sha256hex query provider language ∧
      v = (chatStream sha256hex parse query provider language cacheGet a0 a1).emitted := by
  cases hc : cacheGet (chatKey sha256hex query provider language) with
  | some cached => rw [chatStream_hit hc] at h; simp at h
  | none =>
    cases h0 : (runAttempt parse a0 query).outcome with
    | finished c =>
      rw [chatStream_miss_finished hc h0] at h ⊢
      cases c with
      | false => simp at h
      | true => simp at h ⊢; exact ⟨h.1.symm, h.2.symm⟩
    | fellThrough =>
      rw [chatStream_miss_fellThrough hc h0] at h ⊢
      cases h1 : (runAttempt parse a1 query).outcome with
      | finished c =>
        simp only [secondAttempt, h1] at h ⊢
        cases c with
        | false => simp at h
        | true => simp at h ⊢; exact ⟨h.1.symm, h.2.symm⟩
      | fellThrough => simp [secondAttempt, h1] at h
      | raised e1 => simp [secondAttempt, h1] at h
    | raised e0 =>
      rw [chatStream_miss_raised hc h0] at h ⊢
      cases h1 : (runAttempt parse a1 query).outcome with
      | finished c =>
        simp only [secondAttempt, h1] at h ⊢
        cases c with
        | false => simp at h
        | true => simp at h ⊢; exact ⟨h.1.symm, h.2.symm⟩
      | fellThrough => simp [secondAttempt, h1] at h
      | raised e1 => simp [secondAttempt, h1] at h

/-- The token contents of a GENERAL_QA transcript are exactly the stream
fragments. -/
theorem tokenContents_qa (hits : List SearchHit) (frags : List String) :
    tokenContents (.sources hits :: frags.map .token) = frags := by
  induction frags with
  | nil => rfl
  | cons x l ih =>
    simp only [tokenContents, List.map_cons, List.filterMap_cons] at ih ⊢
    exact congrArg (x :: ·) ih

/-- C6: the cache key is a deterministic function of the namespace, the
normalized (lower-cased, stripped) identifier, and the sorted extra
parameters: any two identifiers with the same normalization — in particular
identifiers differing only in case or leading/trailing whitespace — and any
two parameter maps with the same sorted form yield the same key, for every
digest function. -/
theorem cache_key_deterministic_normalized (sha256hex : String → String)
    (namespace_ id1 id2 : String) (kw1 kw2 : List (String × PyVal))
    (hid : stripStr (lowerStr id1) = stripStr (lowerStr id2))
    (hkw : sortPairs kw1 = sortPairs kw2) :
    generate_key sha256hex namespace_ id1 kw1 = generate_key sha256hex namespace_ id2 kw2 := by
  simp only [generate_key, hid, hkw]

/-- Witness for C6: `"  Encryption  "` and `"encryption"` collide under
identical extra parameters. -/
theorem cache_key_deterministic_normalized_witness :
    stripStr (lowerStr "  Encryption  ") = stripStr (lowerStr "encryption") ∧
    generate_key shaZero "chat" "  Encryption  "
        [("lang", .str "en"), ("model", .str "openai")] =
      generate_key shaZero "chat" "encryption"
        [("lang", .str "en"), ("model", .str "openai")] :=
  ⟨by decide,
   cache_key_deterministic_normalized shaZero "chat" "  Encryption  " "encryption"
     [("lang", .str "en"), ("model", .str "openai")]
     [("lang", .str "en"), ("model", .str "openai")] (by decide) rfl⟩

/-- C10: `_generate_key` silently drops every extra parameter whose value is
Python-falsy (empty string, `0`, `None`): the key computed with such a
parameter present, at any position, equals the key with it omitted. -/
theorem cache_key_drops_falsy_params (sha256hex : String → String)
    (namespace_ identifier : String) (l1 l2 : List (String × PyVal)) (k : String) (v : PyVal)
    (hv : v.truthy = false) :
    generate_key sha256hex namespace_ identifier (l1 ++ (k, v) :: l2) =
      generate_key sha256hex namespace_ identifier (l1 ++ l2) := by
  have hf : (sortPairs (l1 ++ (k, v) :: l2)).filter (fun kv => kv.2.truthy) =
      (sortPairs (l1 ++ l2)).filter (fun kv => kv.2.truthy) := by
    rw [filter_sortPairs, filter_sortPairs, List.filter_append, List.filter_append,
      List.filter_cons]
    simp [hv]
  simp only [generate_key, hf]

/-- Witness for C10: a request carrying `lang=""` collides with one carrying
no `lang` parameter at all. -/
theorem cache_key_drops_falsy_params_witness :
    (PyVal.str "").truthy = false ∧
    generate_key shaZero "chat" "q" [("model", .str "openai"), ("lang", .str "")] =
      generate_key shaZero "chat" "q" [("model", .str "openai")] :=
  ⟨rfl,
   cache_key_drops_falsy_params shaZero "chat" "q" [("model", .str "openai")] []
     "lang" (.str "") rfl⟩

/-- C1: if a run cached a transcript, then a second run with the identical
(query, model_provider, language) against a cache containing that entry
yields exactly the first run's chunk sequence, in the original order, and
invokes no Generation/Retrieval/Graph collaborator — whatever the second
run's collaborators would have done. -/
theorem cached_rerun_replays_identically (sha256hex : String → String)
    (parse parse2 : String → Option RouteObj) (query language : String)
    (provider : Option String) (cacheGet cacheGet2 : String → Option (List Chunk))
    (a0 a1 b0 b1 : Attempt) (k : String) (v : List Chunk)
    (hw : (chatStream sha256hex parse query provider language cacheGet a0 a1).cacheWrite =
      some (k, v))
    (hg : cacheGet2 k = some v) :
    (chatStream sha256hex parse2 query provider language cacheGet2 b0 b1).emitted =
      (chatStream sha256hex parse query provider language cacheGet a0 a1).emitted ∧
    (chatStream sha256hex parse2 query provider language cacheGet2 b0 b1).calls = [] := by
  obtain ⟨hk, hv⟩ := chatStream_cacheWrite_sound hw
  subst hk
  subst hv
  rw [chatStream_hit hg]
  exact ⟨rfl, rfl⟩

/-- Witness for C1: a `TOPIC_SEARCH` run caches its transcript; rerunning
against a cache holding that entry replays it with zero collaborator calls. -/
theorem cached_rerun_replays_identically_witness :
    (chatStream shaZero parseTopic "q" Option.none "en" emptyCache attemptTopic
        attemptTopic).cacheWrite =
      some ("chat::lang=en:model=openai",
        [.searchResults ("Here are the articles related to \x27t\x27:") []]) ∧
    (chatStream shaZero parseTopic "q" Option.none "en" cacheAfterTopic attemptTopic
        attemptTopic).emitted =
      (chatStream shaZero parseTopic "q" Option.none "en" emptyCache attemptTopic
        attemptTopic).emitted ∧
    (chatStream shaZero parseTopic "q" Option.none "en" cacheAfterTopic attemptTopic
        attemptTopic).calls = [] :=
  ⟨by decide,
   cached_rerun_replays_identically shaZero parseTopic parseTopic "q" "en" Option.none
     emptyCache cacheAfterTopic attemptTopic attemptTopic attemptTopic attemptTopic
     "chat::lang=en:model=openai"
     [.searchResults ("Here are the articles related to \x27t\x27:") []]
     (by decide) (by decide)⟩

/-- C2: when both loop iterations raise, the run performs exactly 2 attempts
with exactly one unit of suspension between them, emits exactly one error
chunk — the terminal one, classified from the last error — and writes nothing
to the cache. -/
theorem retry_exhaustion_single_error (sha256hex : String → String)
    (parse : String → Option RouteObj) (query language : String) (provider : Option String)
    (cacheGet : String → Option (List Chunk)) (a0 a1 : Attempt) (e0 e1 : String)
    (hc : cacheGet (chatKey sha256hex query provider language) = Option.none)
    (h0 : (runAttempt parse a0 query).outcome = .raised e0)
    (h1 : (runAttempt parse a1 query).outcome = .raised e1) :
    (chatStream sha256hex parse query provider language cacheGet a0 a1).attempts = 2 ∧
    (chatStream sha256hex parse query provider language cacheGet a0 a1).sleeps = 1 ∧
    (chatStream sha256hex parse query provider language cacheGet a0 a1).cacheWrite =
      Option.none ∧
    ((chatStream sha256hex parse query provider language cacheGet a0 a1).emitted.filter
      Chunk.isError).length = 1 ∧
    (chatStream sha256hex parse query provider language cacheGet a0 a1).emitted.getLast? =
      some (.error (classifyError (some e1))) := by
  rw [chatStream_miss_raised hc h0]
  simp only [secondAttempt, h1]
  refine ⟨by trivial, by trivial, by trivial, ?_, ?_⟩
  · rw [List.filter_append, List.filter_append, runAttempt_raised_no_error h0,
      runAttempt_raised_no_error h1]
    simp [List.filter_cons, Chunk.isError]
  · exact List.getLast?_concat _

/-- Witness for C2: an always-failing LLM constructor exhausts both attempts
and yields one quota-classified error chunk. -/
theorem retry_exhaustion_single_error_witness :
    (chatStream shaZero parseTopic "q" Option.none "en" emptyCache attemptFail
        attemptFail).attempts = 2 ∧
    (chatStream shaZero parseTopic "q" Option.none "en" emptyCache attemptFail
        attemptFail).sleeps = 1 ∧
    (chatStream shaZero parseTopic "q" Option.none "en" emptyCache attemptFail
        attemptFail).cacheWrite = Option.none ∧
    ((chatStream shaZero parseTopic "q" Option.none "en" emptyCache attemptFail
        attemptFail).emitted.filter Chunk.isError).length = 1 ∧
    (chatStream shaZero parseTopic "q" Option.none "en" emptyCache attemptFail
        attemptFail).emitted.getLast? =
      some (.error (classifyError (some "User Quota exceeded"))) :=
  retry_exhaustion_single_error shaZero parseTopic "q" "en" Option.none emptyCache
    attemptFail attemptFail "User Quota exceeded" "User Quota exceeded"
    (by decide) (by decide) (by decide)

/-- C3: when the stripped classifier output fails to parse, the run falls
back to the GENERAL_QA path on the original query: retrieval is called with
the original query and limit 5, the answer is generated and streamed, and the
run completes in one attempt with its transcript cached. -/
theorem router_fallback_general_qa (sha256hex : String → String)
    (parse : String → Option RouteObj) (query language raw : String)
    (provider : Option String) (cacheGet : String → Option (List Chunk)) (a0 a1 : Attempt)
    (frags : List String)
    (hc : cacheGet (chatKey sha256hex query provider language) = Option.none)
    (hl : a0.getLlm = .ok ()) (hr : a0.routerRaw = .ok raw)
    (hp : parse (stripFences raw) = Option.none)
    (hs : a0.qaStream (contextText (a0.search (some query) 5)) (some query) =
      (frags, Option.none)) :
    (chatStream sha256hex parse query provider language cacheGet a0 a1).emitted =
      .sources (a0.search (some query) 5) :: frags.map .token ∧
    (chatStream sha256hex parse query provider language cacheGet a0 a1).calls =
      [.routerCall, .searchCall (some query) 5,
        .qaStreamCall (contextText (a0.search (some query) 5)) (some query)] ∧
    (chatStream sha256hex parse query provider language cacheGet a0 a1).attempts = 1 ∧
    (chatStream sha256hex parse query provider language cacheGet a0 a1).cacheWrite =
      some (chatKey sha256hex query provider language,
        .sources (a0.search (some query) 5) :: frags.map .token) := by
  have hd : dispatchTool a0 (fallbackRoute query) =
      { emitted := .sources (a0.search (some query) 5) :: frags.map .token,
        calls := [.searchCall (some query) 5,
          .qaStreamCall (contextText (a0.search (some query) 5)) (some query)],
        outcome := .finished true } :=
    dispatchTool_qa_ok rfl hs
  have hra : runAttempt parse a0 query =
      { emitted := .sources (a0.search (some query) 5) :: frags.map .token,
        calls := [.routerCall, .searchCall (some query) 5,
          .qaStreamCall (contextText (a0.search (some query) 5)) (some query)],
        outcome := .finished true } := by
    rw [runAttempt_fallback hl hr hp, hd]
  rw [chatStream_miss_finished hc (by rw [hra])]
  rw [hra]
  exact ⟨rfl, rfl, rfl, rfl⟩

/-- Witness for C3: a never-JSON classifier output still completes a
GENERAL_QA run on the original query. -/
theorem router_fallback_general_qa_witness :
    (chatStream shaZero parseFail "q" Option.none "en" emptyCache attemptQA
        attemptQA).emitted =
      .sources (attemptQA.search (some "q") 5) :: (["x", "y"].map .token) ∧
    (chatStream shaZero parseFail "q" Option.none "en" emptyCache attemptQA
        attemptQA).calls =
      [.routerCall, .searchCall (some "q") 5,
        .qaStreamCall (contextText (attemptQA.search (some "q") 5)) (some "q")] ∧
    (chatStream shaZero parseFail "q" Option.none "en" emptyCache attemptQA
        attemptQA).attempts = 1 ∧
    (chatStream shaZero parseFail "q" Option.none "en" emptyCache attemptQA
        attemptQA).cacheWrite =
      some (chatKey shaZero "q" Option.none "en",
        .sources (attemptQA.search (some "q") 5) :: (["x", "y"].map .token)) :=
  router_fallback_general_qa shaZero parseFail "q" "en" "not json" Option.none
    emptyCache attemptQA attemptQA ["x", "y"] (by decide) rfl rfl rfl rfl

/-- C4, counterexample: the claim quantifies over every successfully
completing GENERAL_QA run, but `response_chunks` and the output stream are
not reset between attempts, so a run whose first GENERAL_QA attempt fails
mid-stream and whose retry succeeds emits `sources, token, sources, token`:
the chunks after the first are not all `token` chunks, and the concatenated
token contents ("xy") differ from the answer generated by the completing
attempt ("y"). -/
theorem general_qa_stream_order_counterexample :
    (chatStream shaZero parseQA "q" Option.none "en" emptyCache attemptQAPartial
        attemptQARetry).emitted =
      [.sources [hitT], .token "x", .sources [hitT], .token "y"] ∧
    ((chatStream shaZero parseQA "q" Option.none "en" emptyCache attemptQAPartial
        attemptQARetry).emitted.drop 1).all Chunk.isToken = false ∧
    joinSep ""
        (tokenContents
          (chatStream shaZero parseQA "q" Option.none "en" emptyCache attemptQAPartial
            attemptQARetry).emitted) = "xy" := by
  refine ⟨by decide, by decide, by decide⟩

/-- C4, amended: a GENERAL_QA run that completes on its first attempt emits the
`sources` chunk first, then exactly one `token` chunk per stream fragment in
generation order, so the concatenated token contents equal the full generated
answer; the whole transcript is cached. -/
theorem general_qa_stream_order (sha256hex : String → String)
    (parse : String → Option RouteObj) (query language raw : String)
    (provider : Option String) (cacheGet : String → Option (List Chunk)) (a0 a1 : Attempt)
    (robj : RouteObj) (p : RouteParams) (frags : List String)
    (hc : cacheGet (chatKey sha256hex query provider language) = Option.none)
    (hl : a0.getLlm = .ok ()) (hr : a0.routerRaw = .ok raw)
    (hpr : parse (stripFences raw) = some robj)
    (ht : robj.tool = some "GENERAL_QA")
    (hparams : robj.parameters.getD defaultParams = p)
    (hs : a0.qaStream (contextText (a0.search p.query 5)) p.query = (frags, Option.none)) :
    (chatStream sha256hex parse query provider language cacheGet a0 a1).emitted =
      .sources (a0.search p.query 5) :: frags.map .token ∧
    tokenContents
        (chatStream sha256hex parse query provider language cacheGet a0 a1).emitted =
      frags ∧
    joinSep ""
        (tokenContents
          (chatStream sha256hex parse query provider language cacheGet a0 a1).emitted) =
      joinSep "" frags ∧
    (chatStream sha256hex parse query provider language cacheGet a0 a1).cacheWrite =
      some (chatKey sha256hex query provider language,
        .sources (a0.search p.query 5) :: frags.map .token) := by
  have hs2 : a0.qaStream
      (contextText (a0.search (robj.parameters.getD defaultParams).query 5))
      (robj.parameters.getD defaultParams).query = (frags, Option.none) := by
    rw [hparams]; exact hs
  have hd := dispatchTool_qa_ok (a := a0) ht hs2
  have hra : runAttempt parse a0 query =
      { emitted := .sources (a0.search p.query 5) :: frags.map .token,
        calls := [.routerCall, .searchCall p.query 5,
          .qaStreamCall (contextText (a0.search p.query 5)) p.query],
        outcome := .finished true } := by
    rw [runAttempt_routed hl hr hpr, hd, hparams]
  rw [chatStream_miss_finished hc (by rw [hra])]
  rw [hra]
  exact ⟨rfl, tokenContents_qa _ _, congrArg (joinSep "") (tokenContents_qa _ _), rfl⟩

/-- Witness for C4: a routed GENERAL_QA run with stream fragments
`["x", "y"]` emits `sources` then the two tokens in order. -/
theorem general_qa_stream_order_witness :
    (chatStream shaZero parseQA "q" Option.none "en" emptyCache attemptQA
        attemptQA).emitted =
      .sources (attemptQA.search (some "q") 5) :: (["x", "y"].map .token) ∧
    tokenContents
        (chatStream shaZero parseQA "q" Option.none "en" emptyCache attemptQA
          attemptQA).emitted = ["x", "y"] ∧
    joinSep ""
        (tokenContents
          (chatStream shaZero parseQA "q" Option.none "en" emptyCache attemptQA
            attemptQA).emitted) = joinSep "" ["x", "y"] ∧
    (chatStream shaZero parseQA "q" Option.none "en" emptyCache attemptQA
        attemptQA).cacheWrite =
      some (chatKey shaZero "q" Option.none "en",
        .sources (attemptQA.search (some "q") 5) :: (["x", "y"].map .token)) :=
  general_qa_stream_order shaZero parseQA "q" "en" "not json" Option.none emptyCache
    attemptQA attemptQA
    { tool := some "GENERAL_QA",
      parameters := some { article_number := Option.none, topic := Option.none,
                           query := some "q" } }
    { article_number := Option.none, topic := Option.none, query := some "q" }
    ["x", "y"] (by decide) rfl rfl rfl rfl rfl rfl

/-- C5: in an `EXPLAIN_ARTICLE` dispatch, a truthy `article_number` whose
article is found yields exactly one `explanation` chunk with the transcript
cached under the run's key; a truthy `article_number` whose article is not
found, or a falsy/absent `article_number`, yields exactly one `error` chunk
"Could not find the specified article.", terminating the run in one attempt
with no retry and no cache write. -/
theorem explain_article_dispatch (sha256hex : String → String)
    (parse : String → Option RouteObj) (query language raw : String)
    (provider : Option String) (cacheGet : String → Option (List Chunk)) (a0 a1 : Attempt)
    (robj : RouteObj) (p : RouteParams)
    (hc : cacheGet (chatKey sha256hex query provider language) = Option.none)
    (hl : a0.getLlm = .ok ()) (hr : a0.routerRaw = .ok raw)
    (hpr : parse (stripFences raw) = some robj)
    (ht : robj.tool = some "EXPLAIN_ARTICLE")
    (hparams : robj.parameters.getD defaultParams = p) :
    (∀ (n : Int) (result : ExplainResult), p.article_number = some n → n ≠ 0 →
      a0.explain ("ART-" ++ toString n) = .ok (some result) →
      chatStream sha256hex parse query provider language cacheGet a0 a1 =
        { emitted := [.explanation result.explanation result.context],
          calls := [.routerCall, .explainCall ("ART-" ++ toString n)],
          cacheWrite := some (chatKey sha256hex query provider language,
            [.explanation result.explanation result.context]),
          sleeps := 0, attempts := 1 }) ∧
    (∀ n : Int, p.article_number = some n → n ≠ 0 →
      a0.explain ("ART-" ++ toString n) = .ok Option.none →
      chatStream sha256hex parse query provider language cacheGet a0 a1 =
        { emitted := [.error notFoundMsg],
          calls := [.routerCall, .explainCall ("ART-" ++ toString n)],
          cacheWrite := Option.none, sleeps := 0, attempts := 1 }) ∧
    ((p.article_number = Option.none ∨ p.article_number = some 0) →
      chatStream sha256hex parse query provider language cacheGet a0 a1 =
        { emitted := [.error notFoundMsg], calls := [.routerCall],
          cacheWrite := Option.none, sleeps := 0, attempts := 1 }) := by
  refine ⟨?_, ?_, ?_⟩
  · intro n result hn hn0 he
    have hn2 : (robj.parameters.getD defaultParams).article_number = some n := by
      rw [hparams]; exact hn
    have hra : runAttempt parse a0 query =
        { emitted := [.explanation result.explanation result.context],
          calls := [.routerCall, .explainCall ("ART-" ++ toString n)],
          outcome := .finished true } := by
      rw [runAttempt_routed hl hr hpr, dispatchTool_explain_found ht hn2 hn0 he]
    rw [chatStream_miss_finished hc (by rw [hra]), hra]
    rfl
  · intro n hn hn0 he
    have hn2 : (robj.parameters.getD defaultParams).article_number = some n := by
      rw [hparams]; exact hn
    have hra : runAttempt parse a0 query =
        { emitted := [.error notFoundMsg],
          calls := [.routerCall, .explainCall ("ART-" ++ toString n)],
          outcome := .finished false } := by
      rw [runAttempt_routed hl hr hpr, dispatchTool_explain_missing ht hn2 hn0 he]
    rw [chatStream_miss_finished hc (by rw [hra]), hra]
    rfl
  · intro hn
    have hn2 : (robj.parameters.getD defaultParams).article_number = Option.none ∨
        (robj.parameters.getD defaultParams).article_number = some 0 := by
      rw [hparams]; exact hn
    have hra : runAttempt parse a0 query =
        { emitted := [.error notFoundMsg], calls := [.routerCall],
          outcome := .finished false } := by
      rw [runAttempt_routed hl hr hpr, dispatchTool_explain_falsy ht hn2]
    rw [chatStream_miss_finished hc (by rw [hra]), hra]
    rfl

/-- Witness for C5: an `EXPLAIN_ARTICLE` run on article 5, which the graph
knows, emits exactly one explanation chunk and caches it. -/
theorem explain_article_dispatch_witness :
    chatStream shaZero parseExplain "q" Option.none "en" emptyCache attemptExplain
        attemptExplain =
      { emitted := [.explanation "expl" { id := "ART-5", number := 5, title := "T" }],
        calls := [.routerCall, .explainCall "ART-5"],
        cacheWrite := some (chatKey shaZero "q" Option.none "en",
          [.explanation "expl" { id := "ART-5", number := 5, title := "T" }]),
        sleeps := 0, attempts := 1 } :=
  (explain_article_dispatch shaZero parseExplain "q" "en" "r" Option.none emptyCache
      attemptExplain attemptExplain
      { tool := some "EXPLAIN_ARTICLE",
        parameters := some { article_number := some 5, topic := Option.none,
                             query := Option.none } }
      { article_number := some 5, topic := Option.none, query := Option.none }
      (by decide) rfl rfl rfl rfl rfl).1
    5 { explanation := "expl", context := { id := "ART-5", number := 5, title := "T" } }
    rfl (by decide) rfl

/-- C7: when the retry loop is exhausted with a last error `e1`, the content
of the single terminal error chunk is selected from the error text: the
model-unavailable message if it contains both "404" and "models/", else the
quota message if it case-insensitively contains "quota", else the generic
message. -/
theorem exhausted_error_message_selection (sha256hex : String → String)
    (parse : String → Option RouteObj) (query language : String) (provider : Option String)
    (cacheGet : String → Option (List Chunk)) (a0 a1 : Attempt) (e1 : String)
    (hc : cacheGet (chatKey sha256hex query provider language) = Option.none)
    (h0 : (∃ e0, (runAttempt parse a0 query).outcome = .raised e0) ∨
      (runAttempt parse a0 query).outcome = .fellThrough)
    (h1 : (runAttempt parse a1 query).outcome = .raised e1) :
    (chatStream sha256hex parse query provider language cacheGet a0 a1).emitted.getLast? =
      some (.error
        (if containsStr e1 "404" && containsStr e1 "models/" then modelErrMsg
         else if containsStr (lowerStr e1) "quota" then quotaErrMsg
         else genericErrMsg)) := by
  have hclass : classifyError (some e1) =
      (if containsStr e1 "404" && containsStr e1 "models/" then modelErrMsg
       else if containsStr (lowerStr e1) "quota" then quotaErrMsg
       else genericErrMsg) := rfl
  rcases h0 with ⟨e0, h0⟩ | h0
  · rw [chatStream_miss_raised hc h0]
    simp only [secondAttempt, h1]
    rw [← hclass]
    exact List.getLast?_concat _
  · rw [chatStream_miss_fellThrough hc h0]
    simp only [secondAttempt, h1]
    rw [← hclass]
    exact List.getLast?_concat _

/-- Witness for C7: a last error mentioning both "404" and "models/" selects
the model-unavailable message. -/
theorem exhausted_error_message_selection_witness :
    (chatStream shaZero parseTopic "q" Option.none "en" emptyCache attemptFail404
        attemptFail404).emitted.getLast? =
      some (.error
        (if containsStr "404 models/gemini-pro is not found" "404" &&
            containsStr "404 models/gemini-pro is not found" "models/" then modelErrMsg
         else if containsStr (lowerStr "404 models/gemini-pro is not found") "quota" then
            quotaErrMsg
         else genericErrMsg)) :=
  exhausted_error_message_selection shaZero parseTopic "q" "en" Option.none emptyCache
    attemptFail404 attemptFail404 "404 models/gemini-pro is not found" (by decide)
    (Or.inl ⟨"404 models/gemini-pro is not found", by decide⟩) (by decide)

/-- C9: when both iterations parse a valid route whose tool is none of the
three known tools, each dispatch emits nothing and completes without error,
so the run makes 2 attempts with no inter-attempt sleep, emits exactly the
one terminal generic error chunk (the last error being absent), and caches
nothing. -/
theorem unknown_tool_exhausts_without_delay (sha256hex : String → String)
    (parse : String → Option RouteObj) (query language raw0 raw1 : String)
    (provider : Option String) (cacheGet : String → Option (List Chunk)) (a0 a1 : Attempt)
    (robj0 robj1 : RouteObj)
    (hc : cacheGet (chatKey sha256hex query provider language) = Option.none)
    (hl0 : a0.getLlm = .ok ()) (hr0 : a0.routerRaw = .ok raw0)
    (hp0 : parse (stripFences raw0) = some robj0)
    (ht01 : robj0.tool ≠ some "EXPLAIN_ARTICLE") (ht02 : robj0.tool ≠ some "TOPIC_SEARCH")
    (ht03 : robj0.tool ≠ some "GENERAL_QA")
    (hl1 : a1.getLlm = .ok ()) (hr1 : a1.routerRaw = .ok raw1)
    (hp1 : parse (stripFences raw1) = some robj1)
    (ht11 : robj1.tool ≠ some "EXPLAIN_ARTICLE") (ht12 : robj1.tool ≠ some "TOPIC_SEARCH")
    (ht13 : robj1.tool ≠ some "GENERAL_QA") :
    chatStream sha256hex parse query provider language cacheGet a0 a1 =
      { emitted := [.error genericErrMsg], calls := [.routerCall, .routerCall],
        cacheWrite := Option.none, sleeps := 0, attempts := 2 } := by
  have hra0 : runAttempt parse a0 query =
      { emitted := [], calls := [.routerCall], outcome := .fellThrough } := by
    rw [runAttempt_routed hl0 hr0 hp0, dispatchTool_other ht01 ht02 ht03]
  have hra1 : runAttempt parse a1 query =
      { emitted := [], calls := [.routerCall], outcome := .fellThrough } := by
    rw [runAttempt_routed hl1 hr1 hp1, dispatchTool_other ht11 ht12 ht13]
  have hgen : classifyError Option.none = genericErrMsg := by decide
  rw [chatStream_miss_fellThrough hc (by rw [hra0])]
  rw [hra0, hra1]
  simp [secondAttempt, hgen]

/-- Witness for C9: a classifier answering with tool "SOMETHING_ELSE" twice
exhausts both attempts silently and ends with the generic error chunk. -/
theorem unknown_tool_exhausts_without_delay_witness :
    chatStream shaZero parseOther "q" Option.none "en" emptyCache attemptTopic
        attemptTopic =
      { emitted := [.error genericErrMsg], calls := [.routerCall, .routerCall],
        cacheWrite := Option.none, sleeps := 0, attempts := 2 } :=
  unknown_tool_exhausts_without_delay shaZero parseOther "q" "en" "r" "r" Option.none
    emptyCache attemptTopic attemptTopic
    { tool := some "SOMETHING_ELSE", parameters := Option.none }
    { tool := some "SOMETHING_ELSE", parameters := Option.none }
    (by decide) rfl rfl rfl (by decide) (by decide) (by decide)
    rfl rfl rfl (by decide) (by decide) (by decide)

/-- C8, counterexample: in a GENERAL_QA run the context actually passed to
generation renders each hit as `"Article {number} ({title}):\n{snippet}"` —
colon followed by a NEWLINE — which differs from the claim's per-hit format
`"Article {number} ({title}): {snippet}"` (colon followed by a space). -/
theorem context_format_counterexample :
    (chatStream shaZero parseQA "q" Option.none "en" emptyCache attemptQA attemptQA).calls =
      [.routerCall, .searchCall (some "q") 5,
        .qaStreamCall "Article 1 (T):\nS" (some "q")] ∧
    contextTextSpec [{ id := "GDPR-1", article_number := 1, title := "T",
                       text_snippet := "S", score := 0 }] = "Article 1 (T): S" ∧
    ("Article 1 (T):\nS" : String) ≠ "Article 1 (T): S" := by
  refine ⟨by decide, by decide, by decide⟩

/-- C8, amended: a `TOPIC_SEARCH` dispatch calls retrieval with the extracted
topic and limit 10; a `GENERAL_QA` dispatch calls retrieval with the
extracted query and limit 5 and passes generation the context block built,
per hit, as `"Article {number} ({title}):\n{snippet}"` joined by blank
lines. -/
theorem dispatch_call_arguments (parse : String → Option RouteObj) (a : Attempt)
    (query raw : String) (robj : RouteObj) (p : RouteParams)
    (hl : a.getLlm = .ok ()) (hr : a.routerRaw = .ok raw)
    (hpr : parse (stripFences raw) = some robj)
    (hparams : robj.parameters.getD defaultParams = p) :
    (robj.tool = some "TOPIC_SEARCH" →
      (runAttempt parse a query).calls = [.routerCall, .searchCall p.topic 10]) ∧
    (robj.tool = some "GENERAL_QA" →
      (runAttempt parse a query).calls =
        [.routerCall, .searchCall p.query 5,
          .qaStreamCall
            (joinSep "\n\n" ((a.search p.query 5).map fun r =>
              "Article " ++ toString r.article_number ++ " (" ++ r.title ++ "):\n" ++
                r.text_snippet))
            p.query]) := by
  constructor
  · intro ht
    rw [runAttempt_routed hl hr hpr, dispatchTool_topic ht, hparams]
  · intro ht
    rcases hs : a.qaStream
        (contextText (a.search (robj.parameters.getD defaultParams).query 5))
        (robj.parameters.getD defaultParams).query with ⟨frags, err⟩
    cases err with
    | none =>
      rw [runAttempt_routed hl hr hpr, dispatchTool_qa_ok ht hs, hparams]
      rfl
    | some e =>
      rw [runAttempt_routed hl hr hpr, dispatchTool_qa_raised ht hs, hparams]
      rfl

/-- Witness for the amended C8: both dispatch shapes at concrete inputs. -/
theorem dispatch_call_arguments_witness :
    (runAttempt parseTopic attemptTopic "q").calls =
      [.routerCall, .searchCall (some "t") 10] ∧
    (runAttempt parseQA attemptQA "q").calls =
      [.routerCall, .searchCall (some "q") 5,
        .qaStreamCall
          (joinSep "\n\n" ((attemptQA.search (some "q") 5).map fun r =>
            "Article " ++ toString r.article_number ++ " (" ++ r.title ++ "):\n" ++
              r.text_snippet))
          (some "q")] :=
  ⟨(dispatch_call_arguments parseTopic attemptTopic "q" "r"
      { tool := some "TOPIC_SEARCH",
        parameters := some { article_number := Option.none, topic := some "t",
                             query := Option.none } }
      { article_number := Option.none, topic := some "t", query := Option.none }
      rfl rfl rfl rfl).1 rfl,
   (dispatch_call_arguments parseQA attemptQA "q" "not json"
      { tool := some "GENERAL_QA",
        parameters := some { article_number := Option.none, topic := Option.none,
                             query := some "q" } }
      { article_number := Option.none, topic := Option.none, query := some "q" }
      rfl rfl rfl rfl).2 rfl⟩

end Gdpr
